import Mathlib

/-!
Verification of the `autorun` dry-run test harness (`test_suite.py`, the
stricter variant, and `live_test_suite.py`, the live variant).

The Python code is shallowly embedded:
* a repository directory is modelled by the list of filenames that exist in
  it, plus (where needed) a content map for `read_text`;
* the `git clone` subprocess is modelled by an oracle value `GitOutcome`
  describing what the subprocess would return (or raise);
* Python strings are Lean `String`s; `str.lower`, `str.strip`, `str.strip`
  with a backtick argument, `in` (substring), `startswith` and
  `str.split` on a newline are re-implemented below on `List Char`
  (ASCII-faithful, which covers all strings the harness manipulates);
* Python dicts with a fixed key set become structures; a dict that starts
  out as `{}` and is later replaced by a populated dict becomes an
  `Option`-typed field (`none` = the initial empty dict);
* the `float` success rate is modelled by `ℚ` (exact arithmetic; all
  comparisons performed by the code are at exactly representable points).
-/

/-! ## Python string primitives -/

/-- The backtick character (written via its code point). -/
def backtickChar : Char := Char.ofNat 96

/-- ASCII whitespace, as stripped by Python `str.strip()`. -/
def isPyWS (c : Char) : Bool :=
  c == ' ' || c == '\t' || c == '\n' || c == '\r' || c == Char.ofNat 11 || c == Char.ofNat 12

/-- Drop characters satisfying `p` from both ends of a character list. -/
def dropEnds (p : Char → Bool) (s : List Char) : List Char :=
  ((s.dropWhile p).reverse.dropWhile p).reverse

/-- Python `s.strip()` (whitespace from both ends). -/
def pyStrip (s : String) : String := ⟨dropEnds isPyWS s.toList⟩

/-- Python `s.strip(c)` for a single character `c` (both ends). -/
def pyStripChar (c : Char) (s : String) : String := ⟨dropEnds (fun x => x == c) s.toList⟩

/-- Python `s.lower()` (ASCII case folding, which is all the harness needs). -/
def lowerStr (s : String) : String := ⟨s.toList.map Char.toLower⟩

/-- `startsList p s`: the character list `p` heads the character list `s`. -/
def startsList : List Char → List Char → Bool
  | [], _ => true
  | _ :: _, [] => false
  | p :: ps, c :: cs => p == c && startsList ps cs

/-- `hasSub pat s`: `pat` occurs as a contiguous run inside `s`. -/
def hasSub (pat : List Char) : List Char → Bool
  | [] => startsList pat []
  | c :: t => startsList pat (c :: t) || hasSub pat t

/-- Python `pat in s` (substring containment). -/
def pyIn (pat s : String) : Bool := hasSub pat.toList s.toList

/-- Python `s.startswith(pre)`. -/
def pyStartsWith (s pre : String) : Bool := startsList pre.toList s.toList

/-- Splitting accumulator for `splitLines`; `cur` holds the pending line reversed. -/
def splitLinesAux : List Char → List Char → List String
  | [], cur => [⟨cur.reverse⟩]
  | c :: rest, cur =>
    if c == '\n' then ⟨cur.reverse⟩ :: splitLinesAux rest []
    else splitLinesAux rest (c :: cur)

/-- Python `s.split(chr(10))`. -/
def splitLines (s : String) : List String := splitLinesAux s.toList []

/-- Python truthiness of an optional string (`None` and `""` are falsy). -/
def pyTruthyStr : Option String → Bool
  | none => false
  | some s => s != ""

/-- Python `str(l)` for a list of strings without quotes inside
(e.g. `["a", "b"]` renders as `[\x27a\x27, \x27b\x27]`). -/
def pyStrList (l : List String) : String :=
  "[" ++ String.intercalate ", " (l.map (fun s => "\x27" ++ s ++ "\x27")) ++ "]"

/-- `Except.isOk` as a plain definition. -/
def isOkE {ε α : Type} : Except ε α → Bool
  | Except.ok _ => true
  | Except.error _ => false

/-! ## The clone subprocess oracle and `clone_repo` (both variants) -/

/-- What the `git clone` subprocess call would do if invoked:
terminate with a return code and combined stdout+stderr text, or raise
(timeout or other exception) with a message. -/
inductive GitOutcome where
  | ok (returncode : Int) (output : String)
  | exc (msg : String)

/-- `TestRunner.clone_repo` (test_suite.py lines 44-60): if the destination
directory already exists, report success with the text "Already cloned"
without running the subprocess; otherwise the subprocess oracle decides. -/
def clone_repo (dirExists : Bool) (git : GitOutcome) : Bool × String :=
  if dirExists then (true, "Already cloned")
  else
    match git with
    | GitOutcome.ok rc out => (rc == 0, out)
    | GitOutcome.exc e => (false, e)

/-- `LiveTestRunner.clone_repo` (live_test_suite.py lines 40-57), success
flag only (the returned path is determined by the repo name alone). -/
def clone_repo_live (dirExists : Bool) (git : GitOutcome) : Bool :=
  if dirExists then true
  else
    match git with
    | GitOutcome.ok rc _ => rc == 0
    | GitOutcome.exc _ => false

/-- Modelled from git semantics (not from the harness): a successful clone
creates the destination directory, so after an attempt the directory exists
iff it existed before or the attempt succeeded. -/
def dirAfterClone (dirExists : Bool) (git : GitOutcome) : Bool :=
  dirExists || (clone_repo dirExists git).1

/-! ## Manifest detection (`TestRunner.detect_dependencies`) -/

/-- Ecosystem tags used as keys of the strict variant's dependency dict. -/
inductive DepTag where
  | python | node | rust | go | cpp | other
deriving DecidableEq

/-- The strict variant's dependency dict (fixed key set). -/
structure Dependencies where
  python : Bool
  node : Bool
  rust : Bool
  go : Bool
  cpp : Bool
  other : List String
deriving DecidableEq

/-- The empty dependency dict `detect_dependencies` starts from. -/
def noDeps : Dependencies :=
  { python := false, node := false, rust := false, go := false, cpp := false, other := [] }

/-- The fixed ordered `checks` table (test_suite.py lines 85-95). -/
def depChecks : List (String × DepTag) :=
  [("requirements.txt", DepTag.python), ("Pipfile", DepTag.python),
   ("pyproject.toml", DepTag.python), ("setup.py", DepTag.python),
   ("package.json", DepTag.node), ("Cargo.toml", DepTag.rust),
   ("go.mod", DepTag.go), ("CMakeLists.txt", DepTag.cpp), ("Makefile", DepTag.other)]

/-- One iteration of the `for manifest, dep_type in checks` loop body. -/
def applyCheck (files : List String) (d : Dependencies) (c : String × DepTag) : Dependencies :=
  if files.contains c.1 then
    match c.2 with
    | DepTag.python => { d with python := true }
    | DepTag.node => { d with node := true }
    | DepTag.rust => { d with rust := true }
    | DepTag.go => { d with go := true }
    | DepTag.cpp => { d with cpp := true }
    | DepTag.other => { d with other := d.other ++ [c.1] }
  else d

/-- `TestRunner.detect_dependencies` (test_suite.py lines 75-105); the input
is the list of filenames existing in the repository directory. -/
def detect_dependencies (files : List String) : Dependencies :=
  depChecks.foldl (applyCheck files) noDeps

/-! ## Action plan generation (`TestRunner.generate_action_plan`) -/

/-- The first heuristic keyword set of line 126. -/
def runKeys : List String := ["npm run", "npm start", "python", "cargo run", "make", "./"]

/-- The body of the `for line in lines` loop (test_suite.py lines 124-130):
the candidate run command a README line contributes, if any. -/
def runCmdFromLine (line : String) : Option String :=
  let line_lower := pyStrip (lowerStr line)
  if runKeys.any (fun k => pyIn k line_lower) then
    if pyIn "run" line_lower || pyIn "start" line_lower || pyIn "build" line_lower then
      let cmd := pyStrip (pyStripChar backtickChar (pyStrip line))
      if cmd != "" && !(pyStartsWith cmd "#") && !(pyStartsWith cmd "<!--") then some cmd
      else none
    else none
  else none

/-- The strict variant's action plan; the nested `plan["dependencies"]` dict
is flattened into the five `dep…` fields (its keys are fixed). Every
install-plan entry is a total `String` field: the code always assigns either
the real command or the "No … deps" placeholder. -/
structure ActionPlan where
  clone : String
  depPython : String
  depNode : String
  depRust : String
  depGo : String
  depCpp : String
  run_commands : List String
  dry_run_notes : List String
deriving DecidableEq

/-- `TestRunner.generate_action_plan` (test_suite.py lines 107-139); the
unused `repo_dir` parameter of the Python signature is dropped. -/
def generate_action_plan (repo : String) (readme_content : String)
    (dependencies : Dependencies) : ActionPlan :=
  let lines := splitLines readme_content
  let cmds := lines.foldl
    (fun acc line =>
      match runCmdFromLine line with
      | some c => acc ++ [c]
      | none => acc) []
  let run_commands := cmds.take 5
  { clone := "git clone --depth 1 https://github.com/" ++ repo ++ ".git",
    depPython := if dependencies.python then "pip install -r requirements.txt" else "No Python deps",
    depNode := if dependencies.node then "npm install" else "No Node deps",
    depRust := if dependencies.rust then "cargo build" else "No Rust deps",
    depGo := if dependencies.go then "go mod download" else "No Go deps",
    depCpp := if dependencies.cpp then "make / cmake" else "No C++ deps",
    run_commands := run_commands,
    dry_run_notes :=
      ["[DRY-RUN] Would clone " ++ repo,
       "[DRY-RUN] Would install dependencies based on detected manifests",
       "[DRY-RUN] Would execute: " ++
         (match run_commands with
          | c :: _ => c
          | [] => "unknown"),
       "[DRY-RUN] No actual system changes made - test mode enabled"] }

/-! ## README location and the strict per-repository pipeline -/

/-- A cloned repository directory: which filenames exist, and what
`read_text` would yield for each (`Except.error` models a raised
exception's text). Detection functions consume only `files`. -/
structure RepoDir where
  files : List String
  content : String → Except String String

/-- The ordered README candidate list of the strict variant (line 63). -/
def readme_paths : List String := ["README.md", "readme.md", "README", "readme"]

/-- `TestRunner.read_readme` (test_suite.py lines 62-73): first existing
candidate is read; a read failure or no candidate yields `false` plus the
diagnostic text. -/
def read_readme (d : RepoDir) : Bool × String :=
  match readme_paths.find? (fun p => d.files.contains p) with
  | some p =>
    match d.content p with
    | Except.ok txt => (true, txt)
    | Except.error e => (false, e)
  | none => (false, "No README found")

/-- The strict variant's per-repository result dict. `dependencies` and
`action_plan` start as the empty dict `\x7b\x7d`, modelled by `none`. -/
structure AnalysisResult where
  repo : String
  clone_success : Bool
  clone_error : Option String
  readme_found : Bool
  readme_content : Option String
  readme_error : Option String
  dependencies : Option Dependencies
  action_plan : Option ActionPlan
deriving DecidableEq

/-- `TestRunner.analyze_repo` (test_suite.py lines 141-172). -/
def analyze_repo (repoName : String) (dirExists : Bool) (git : GitOutcome)
    (d : RepoDir) : AnalysisResult :=
  let c := clone_repo dirExists git
  let base : AnalysisResult :=
    { repo := repoName, clone_success := c.1,
      clone_error := if c.1 then none else some c.2,
      readme_found := false, readme_content := none, readme_error := none,
      dependencies := none, action_plan := none }
  if c.1 = false then base
  else
    let rr := read_readme d
    let r2 :=
      { base with
        readme_found := rr.1,
        readme_content := if rr.1 then some rr.2 else none,
        readme_error := if rr.1 then none else some rr.2 }
    if rr.1 = false then r2
    else
      let deps := detect_dependencies d.files
      { r2 with
        dependencies := some deps,
        action_plan := some (generate_action_plan repoName rr.2 deps) }

/-- Everything the environment supplies for one repository of the batch. -/
structure RepoInput where
  name : String
  language : String
  dirExists : Bool
  git : GitOutcome
  dir : RepoDir

/-- One `analyze_repo` call on a batch entry. -/
def runInput (i : RepoInput) : AnalysisResult :=
  analyze_repo i.name i.dirExists i.git i.dir

/-- The result list built by the `for repo in TEST_REPOS` loop of
`TestRunner.run_tests` (test_suite.py lines 174-190): every repository is
analyzed, whatever the previous outcomes were. -/
def run_tests (inputs : List RepoInput) : List AnalysisResult :=
  inputs.map runInput

/-! ## The strict aggregate report and exit code -/

/-- The numeric fields of the strict variant's aggregate report. -/
structure Report where
  total_repos : Nat
  successful_clones : Nat
  successful_reads : Nat
  success_rate : ℚ
  avg_run_commands : ℚ
deriving DecidableEq

/-- The Python `KeyError` raised by `r["action_plan"]["run_commands"]`
when `action_plan` is still the empty dict. -/
def keyErrRunCommands : String := "KeyError: \x27run_commands\x27"

/-- `len(r["action_plan"]["run_commands"])` for one result; fails exactly
when `action_plan` is the empty dict. -/
def runCommandsLen (r : AnalysisResult) : Except String Nat :=
  match r.action_plan with
  | some p => Except.ok p.run_commands.length
  | none => Except.error keyErrRunCommands

/-- `sum(len(r["action_plan"]["run_commands"]) for r in self.results)`,
evaluated left to right, propagating the first `KeyError`. -/
def sumRunCommands : List AnalysisResult → Except String Nat
  | [] => Except.ok 0
  | r :: rs =>
    match runCommandsLen r with
    | Except.error e => Except.error e
    | Except.ok n =>
      match sumRunCommands rs with
      | Except.error e => Except.error e
      | Except.ok m => Except.ok (n + m)

/-- `TestRunner.generate_report` (test_suite.py lines 192-213), numeric
fields only; `Except.error` models the `KeyError` escaping the method. -/
def generate_report (results : List AnalysisResult) : Except String Report :=
  let total := results.length
  let successful_clones := (results.filter (fun r => r.clone_success)).length
  let successful_reads := (results.filter (fun r => r.readme_found)).length
  match (if 0 < total then sumRunCommands results else Except.ok 0) with
  | Except.error e => Except.error e
  | Except.ok s =>
    Except.ok
      { total_repos := total,
        successful_clones := successful_clones,
        successful_reads := successful_reads,
        success_rate := if 0 < total then (successful_clones : ℚ) / (total : ℚ) * 100 else 0,
        avg_run_commands := if 0 < total then (s : ℚ) / (total : ℚ) else 0 }

/-- `main` of test_suite.py (lines 250-254): 0 when the report's success
rate is at least 80, else 1; an escaping `KeyError` means no return value. -/
def strict_main (inputs : List RepoInput) : Except String Nat :=
  match generate_report (run_tests inputs) with
  | Except.error e => Except.error e
  | Except.ok report => Except.ok (if (80 : ℚ) ≤ report.success_rate then 0 else 1)

/-! ## The live variant (`live_test_suite.py`) -/

/-- Value of `result["would_detect_deps"]` once assigned: either the list of
detected `"tag (manifest)"` strings, or the literal string "none detected". -/
inductive DepsVal where
  | deps (l : List String)
  | msg (s : String)
deriving DecidableEq

/-- The nested `result["would_ask_ai"]` dict; the last three fields are the
keys added only by the AI-failure branch (lines 145-149). -/
structure AskAI where
  prompt : String
  expected_language : String
  expected_install : String
  expected_run : String
  ai_response : Option String
  would_fail : Option Bool
  failure_message : Option String
deriving DecidableEq

/-- The live variant's per-repository result dict (lines 63-74); fields
initialised to `None` are `Option`s. -/
structure LiveResult where
  repo : String
  would_clone : String
  would_readme : Option String
  would_detect_deps : Option DepsVal
  would_ask_ai : Option AskAI
  would_install : Option String
  would_run : Option String
  failure_mode : Bool
  failure_reason : Option String
deriving DecidableEq

/-- README lookup of the live variant (lines 84-99): `README.md` first,
then the alternative list; returns the message stored in `would_readme`
and whether the not-found failure branch was taken. -/
def liveReadme (files : List String) : String × Bool :=
  if files.contains "README.md" then ("README.md found", false)
  else
    match ["README.txt", "README", "readme.md", "readme.txt", "readme"].find?
        (fun a => files.contains a) with
    | some alt => (alt ++ " found", false)
    | none => ("No README found", true)

/-- The live variant's `deps` table (lines 102-108); note `Makefile` sits in
the `cpp` manifest list here, unlike the strict variant's table. -/
def liveDeps : List (String × List String) :=
  [("python", ["requirements.txt", "Pipfile", "pyproject.toml", "setup.py"]),
   ("node", ["package.json"]),
   ("rust", ["Cargo.toml"]),
   ("go", ["go.mod"]),
   ("cpp", ["CMakeLists.txt", "Makefile"])]

/-- The `detected_deps` list (lines 110-115): per ecosystem, the first
existing manifest (the inner loop breaks) contributes one entry. -/
def detectLive (files : List String) : List String :=
  liveDeps.filterMap
    (fun dt => (dt.2.find? (fun m => files.contains m)).map
      (fun m => dt.1 ++ " (" ++ m ++ ")"))

/-- The initial live result dict (lines 63-74). -/
def liveInit (repoName : String) : LiveResult :=
  { repo := repoName,
    would_clone := "git clone --depth 1 https://github.com/" ++ repoName ++ ".git",
    would_readme := none, would_detect_deps := none, would_ask_ai := none,
    would_install := none, would_run := none,
    failure_mode := false, failure_reason := none }

/-- `LiveTestRunner.test_runthis_cli` after a successful clone
(live_test_suite.py lines 84-153). -/
def liveAnalyze (repoName language : String) (files : List String) : LiveResult :=
  let rm := liveReadme files
  let r1 :=
    if rm.2 then
      { liveInit repoName with
        would_readme := some rm.1,
        failure_mode := true,
        failure_reason := some "No README found - runthis would exit with code 1" }
    else { liveInit repoName with would_readme := some rm.1 }
  let detected := detectLive files
  let r2 :=
    { r1 with
      would_detect_deps :=
        some (if detected.isEmpty then DepsVal.msg "none detected" else DepsVal.deps detected) }
  let depsRepr := lowerStr (pyStrList detected)
  let ai : AskAI :=
    { prompt := "Determine how to run " ++ repoName ++ " from README",
      expected_language := lowerStr language,
      expected_install :=
        if pyIn "python" depsRepr then "pip install -r requirements.txt"
        else if pyIn "node" depsRepr then "npm install"
        else if pyIn "rust" depsRepr then "cargo build"
        else "make",
      expected_run :=
        if pyIn "python" depsRepr then "python main.py"
        else if pyIn "node" depsRepr then "npm start"
        else if pyIn "rust" depsRepr then "cargo run"
        else if pyIn "steipete/gogcli" repoName then "./bin/gog"
        else "Unknown",
      ai_response := none, would_fail := none, failure_message := none }
  let r3 := { r2 with would_ask_ai := some ai }
  let r4 :=
    { r3 with
      would_install :=
        some (if detected.isEmpty then "No dependencies detected"
          else "Would run install command for: " ++ String.intercalate ", " detected) }
  let r5 := { r4 with would_run := some "Would execute the determined run command" }
  let r6 :=
    if r5.would_readme == some "No README found" then
      { r5 with
        failure_mode := true,
        failure_reason := some "No README found - runthis would exit with code 1" }
    else r5
  if pyTruthyStr r6.would_readme && detected.isEmpty then
    { r6 with
      would_ask_ai :=
        some { ai with
          ai_response := some "Unable to determine how to run this project",
          would_fail := some true,
          failure_message := some "AI could not determine action - would exit gracefully" },
      failure_mode := true,
      failure_reason := some "AI failure mode - no clear instructions found" }
  else r6

/-- `LiveTestRunner.test_runthis_cli` (live_test_suite.py lines 59-153):
a failed clone returns at once with only the failure fields set. -/
def test_runthis_cli (repoName language : String) (dirExists : Bool)
    (git : GitOutcome) (files : List String) : LiveResult :=
  if clone_repo_live dirExists git = true then liveAnalyze repoName language files
  else
    { liveInit repoName with
      failure_mode := true,
      failure_reason := some ("Failed to clone " ++ repoName) }

/-- Environment input for one live batch entry. -/
structure LiveInput where
  name : String
  language : String
  dirExists : Bool
  git : GitOutcome
  files : List String

/-- The result list built by `LiveTestRunner.run_live_tests`
(lines 155-173): every repository is tested in turn. -/
def run_live_tests (inputs : List LiveInput) : List LiveResult :=
  inputs.map (fun i => test_runthis_cli i.name i.language i.dirExists i.git i.files)

/-- The numeric fields of `LiveTestRunner.generate_report` (lines 175-198);
no field access here can fail. -/
structure LiveReport where
  total_repos : Nat
  failures : Nat
  success_rate : ℚ
deriving DecidableEq

/-- `LiveTestRunner.generate_report`, numeric fields. -/
def live_generate_report (results : List LiveResult) : LiveReport :=
  let total := results.length
  let failures := (results.filter (fun r => r.failure_mode)).length
  { total_repos := total, failures := failures,
    success_rate := if 0 < total then ((total - failures : Nat) : ℚ) / (total : ℚ) * 100 else 0 }

/-- The Python `AttributeError` raised by calling `.get` on None. -/
def attrErrNoneGet : String :=
  "AttributeError: \x27NoneType\x27 object has no attribute \x27get\x27"

/-- The failure-mode scan of `LiveTestRunner.print_report`
(live_test_suite.py lines 212-218): for every failure-mode entry it
evaluates `failure.get("would_ask_ai", \x7b\x7d).get("would_fail")`. The
would_ask_ai key always exists, so `.get` returns its stored value; on a
clone-failed entry that value is None, and the second `.get` is then
called on None, raising AttributeError. -/
def liveFailureScan : List LiveResult → Except String Unit
  | [] => Except.ok ()
  | r :: rs =>
    match r.would_ask_ai with
    | none => Except.error attrErrNoneGet
    | some _ => liveFailureScan rs

/-- `main` of live_test_suite.py (lines 223-229): the report is produced,
`print_report` runs, and only then is 0 returned (the comment at line 228
documents the intent: exit 0 even with failures). `print_report` can raise
at line 217, modelled by the failure-mode scan over the failure_mode
entries, so main returns 0 exactly when that scan completes. -/
def live_main_exit (results : List LiveResult) : Except String Nat :=
  let _report := live_generate_report results
  match liveFailureScan (results.filter (fun r => r.failure_mode)) with
  | Except.error e => Except.error e
  | Except.ok _ => Except.ok 0

/-! ## Decidability helper -/

instance {ε α : Type} [DecidableEq ε] [DecidableEq α] : DecidableEq (Except ε α) := fun x y =>
  match x, y with
  | Except.ok a, Except.ok b =>
    if h : a = b then Decidable.isTrue (congrArg Except.ok h)
    else Decidable.isFalse (fun hc => h (Except.ok.inj hc))
  | Except.error a, Except.error b =>
    if h : a = b then Decidable.isTrue (congrArg Except.error h)
    else Decidable.isFalse (fun hc => h (Except.error.inj hc))
  | Except.ok _, Except.error _ => Decidable.isFalse (fun hc => Except.noConfusion hc)
  | Except.error _, Except.ok _ => Decidable.isFalse (fun hc => Except.noConfusion hc)

/-! ## Concrete fixtures used to instantiate the theorems -/

/-- A repository directory holding only an empty `README.md`. -/
def demoDir : RepoDir := ⟨["README.md"], fun _ => Except.ok ""⟩

/-- A repository directory with no files at all. -/
def emptyDir : RepoDir := ⟨[], fun _ => Except.ok ""⟩

/-- A batch entry whose whole pipeline succeeds. -/
def demoInput : RepoInput := ⟨"o/r", "Py", true, GitOutcome.ok 0 "", demoDir⟩

/-- A README with five earlier matching lines before a backticked
`npm run build` line, exercising the first-5 truncation. -/
def c6readme : String :=
  "make run 1\nmake run 2\nmake run 3\nmake run 4\nmake run 5\n`npm run build`"

/-! ## Helper lemmas -/

/-- The run-command loop (append to an accumulator, in line order) equals
`filterMap` over the lines. -/
theorem foldl_snoc_filterMap (f : String → Option String) (l : List String)
    (acc : List String) :
    l.foldl
      (fun a line =>
        match f line with
        | some c => a ++ [c]
        | none => a) acc = acc ++ l.filterMap f := by
  induction l generalizing acc with
  | nil => simp
  | cons x xs ih =>
    cases hx : f x <;>
      simp [List.foldl_cons, hx, ih, List.filterMap_cons]

/-- The truncated run-command list of a generated plan, in closed form. -/
theorem run_commands_eq (repo readme : String) (deps : Dependencies) :
    (generate_action_plan repo readme deps).run_commands
      = ((splitLines readme).filterMap runCmdFromLine).take 5 := by
  simp [generate_action_plan, foldl_snoc_filterMap]

theorem applyCheck_other_proj (files : List String) (d : Dependencies) (c : String × DepTag) :
    (applyCheck files d c).other =
      if files.contains c.1 ∧ c.2 = DepTag.other then d.other ++ [c.1] else d.other := by
  rcases c with ⟨f, t⟩
  cases t <;> simp [applyCheck] <;> split <;> simp_all

theorem applyCheck_python_proj (files : List String) (d : Dependencies) (c : String × DepTag) :
    (applyCheck files d c).python =
      if files.contains c.1 ∧ c.2 = DepTag.python then true else d.python := by
  rcases c with ⟨f, t⟩
  cases t <;> simp [applyCheck] <;> split <;> simp_all

theorem applyCheck_node_proj (files : List String) (d : Dependencies) (c : String × DepTag) :
    (applyCheck files d c).node =
      if files.contains c.1 ∧ c.2 = DepTag.node then true else d.node := by
  rcases c with ⟨f, t⟩
  cases t <;> simp [applyCheck] <;> split <;> simp_all

theorem applyCheck_rust_proj (files : List String) (d : Dependencies) (c : String × DepTag) :
    (applyCheck files d c).rust =
      if files.contains c.1 ∧ c.2 = DepTag.rust then true else d.rust := by
  rcases c with ⟨f, t⟩
  cases t <;> simp [applyCheck] <;> split <;> simp_all

theorem applyCheck_go_proj (files : List String) (d : Dependencies) (c : String × DepTag) :
    (applyCheck files d c).go =
      if files.contains c.1 ∧ c.2 = DepTag.go then true else d.go := by
  rcases c with ⟨f, t⟩
  cases t <;> simp [applyCheck] <;> split <;> simp_all

theorem applyCheck_cpp_proj (files : List String) (d : Dependencies) (c : String × DepTag) :
    (applyCheck files d c).cpp =
      if files.contains c.1 ∧ c.2 = DepTag.cpp then true else d.cpp := by
  rcases c with ⟨f, t⟩
  cases t <;> simp [applyCheck] <;> split <;> simp_all

theorem detect_other (files : List String) :
    (detect_dependencies files).other = if files.contains "Makefile" then ["Makefile"] else [] := by
  simp only [detect_dependencies, depChecks, List.foldl_cons, List.foldl_nil]
  simp [applyCheck_other_proj, noDeps]

theorem detect_cpp (files : List String) :
    (detect_dependencies files).cpp = files.contains "CMakeLists.txt" := by
  simp only [detect_dependencies, depChecks, List.foldl_cons, List.foldl_nil]
  simp [applyCheck_cpp_proj, noDeps]

theorem detect_python (files : List String) :
    (detect_dependencies files).python =
      (files.contains "requirements.txt" || files.contains "Pipfile"
        || files.contains "pyproject.toml" || files.contains "setup.py") := by
  simp only [detect_dependencies, depChecks, List.foldl_cons, List.foldl_nil]
  simp [applyCheck_python_proj, noDeps]
  ac_rfl

theorem detect_node (files : List String) :
    (detect_dependencies files).node = files.contains "package.json" := by
  simp only [detect_dependencies, depChecks, List.foldl_cons, List.foldl_nil]
  simp [applyCheck_node_proj, noDeps]

theorem detect_rust (files : List String) :
    (detect_dependencies files).rust = files.contains "Cargo.toml" := by
  simp only [detect_dependencies, depChecks, List.foldl_cons, List.foldl_nil]
  simp [applyCheck_rust_proj, noDeps]

theorem detect_go (files : List String) :
    (detect_dependencies files).go = files.contains "go.mod" := by
  simp only [detect_dependencies, depChecks, List.foldl_cons, List.foldl_nil]
  simp [applyCheck_go_proj, noDeps]

theorem analyze_clone_fail (repoName : String) (dirExists : Bool) (git : GitOutcome)
    (d : RepoDir) (h : (clone_repo dirExists git).1 = false) :
    (analyze_repo repoName dirExists git d).clone_success = false ∧
    (analyze_repo repoName dirExists git d).readme_found = false ∧
    (analyze_repo repoName dirExists git d).readme_content = none ∧
    (analyze_repo repoName dirExists git d).readme_error = none ∧
    (analyze_repo repoName dirExists git d).dependencies = none ∧
    (analyze_repo repoName dirExists git d).action_plan = none := by
  simp [analyze_repo, h]

theorem analyze_readme_fail (repoName : String) (dirExists : Bool) (git : GitOutcome)
    (d : RepoDir) (hc : (clone_repo dirExists git).1 = true)
    (hr : (read_readme d).1 = false) :
    (analyze_repo repoName dirExists git d).readme_found = false ∧
    (analyze_repo repoName dirExists git d).dependencies = none ∧
    (analyze_repo repoName dirExists git d).action_plan = none := by
  simp [analyze_repo, hc, hr]

theorem analyze_plan_isSome (repoName : String) (dirExists : Bool) (git : GitOutcome)
    (d : RepoDir) :
    (analyze_repo repoName dirExists git d).action_plan.isSome
      = ((clone_repo dirExists git).1 && (read_readme d).1) := by
  simp only [analyze_repo]
  cases hc : (clone_repo dirExists git).1 <;> cases hr : (read_readme d).1 <;> simp [hc, hr]

theorem sumRunCommands_isOk (results : List AnalysisResult) :
    isOkE (sumRunCommands results) = results.all (fun r => r.action_plan.isSome) := by
  induction results with
  | nil => rfl
  | cons r rs ih =>
    cases hr : r.action_plan with
    | none => simp [sumRunCommands, runCommandsLen, hr, isOkE]
    | some p =>
      cases hs : sumRunCommands rs with
      | error e => simp_all [sumRunCommands, runCommandsLen, hr, hs, isOkE]
      | ok n => simp_all [sumRunCommands, runCommandsLen, hr, hs, isOkE]

theorem generate_report_isOk (results : List AnalysisResult) :
    isOkE (generate_report results) = results.all (fun r => r.action_plan.isSome) := by
  cases results with
  | nil => rfl
  | cons r rs =>
    have h0 : 0 < (r :: rs).length := Nat.succ_pos _
    simp only [generate_report, if_pos h0]
    rw [← sumRunCommands_isOk]
    cases sumRunCommands (r :: rs) <;> rfl

theorem liveReadme_truthy (files : List String) : ((liveReadme files).1 != "") = true := by
  unfold liveReadme
  split
  · decide
  · split
    · rename_i alt _
      simp only [bne_iff_ne, ne_eq]
      intro hc
      have hl := congrArg String.length hc
      rw [String.length_append] at hl
      have h6 : (" found").length = 6 := rfl
      have h0 : ("" : String).length = 0 := rfl
      omega
    · decide

theorem some_beq_some (a b : String) : (some a == some b) = (a == b) := rfl

theorem liveAnalyze_would_readme (n l : String) (files : List String) :
    (liveAnalyze n l files).would_readme = some (liveReadme files).1 := by
  have ht := liveReadme_truthy files
  by_cases h2 : (liveReadme files).2 <;>
    by_cases h3 : ((liveReadme files).1 == "No README found") = true <;>
      simp [liveAnalyze, h2, h3, pyTruthyStr, ht, some_beq_some] <;>
        split <;> simp

theorem liveAnalyze_detect_isSome (n l : String) (files : List String) :
    (liveAnalyze n l files).would_detect_deps.isSome = true := by
  have ht := liveReadme_truthy files
  by_cases h2 : (liveReadme files).2 <;>
    by_cases h3 : ((liveReadme files).1 == "No README found") = true <;>
      simp [liveAnalyze, h2, h3, pyTruthyStr, ht, some_beq_some] <;>
        split <;> simp

theorem liveAnalyze_ask_isSome (n l : String) (files : List String) :
    (liveAnalyze n l files).would_ask_ai.isSome = true := by
  have ht := liveReadme_truthy files
  by_cases h2 : (liveReadme files).2 <;>
    by_cases h3 : ((liveReadme files).1 == "No README found") = true <;>
      simp [liveAnalyze, h2, h3, pyTruthyStr, ht, some_beq_some] <;>
        split <;> simp

theorem liveAnalyze_nodeps (n l : String) (files : List String)
    (hdeps : detectLive files = []) :
    (liveAnalyze n l files).failure_mode = true ∧
    (liveAnalyze n l files).failure_reason
      = some "AI failure mode - no clear instructions found" ∧
    (liveAnalyze n l files).would_ask_ai.map (fun a => a.would_fail)
      = some (some true) := by
  have ht := liveReadme_truthy files
  by_cases h2 : (liveReadme files).2 <;>
    by_cases h3 : ((liveReadme files).1 == "No README found") = true <;>
      simp [liveAnalyze, hdeps, h2, h3, pyTruthyStr, ht, some_beq_some]

theorem liveAnalyze_install_isSome (n l : String) (files : List String) :
    (liveAnalyze n l files).would_install.isSome = true := by
  have ht := liveReadme_truthy files
  by_cases h2 : (liveReadme files).2 <;>
    by_cases h3 : ((liveReadme files).1 == "No README found") = true <;>
      simp [liveAnalyze, h2, h3, pyTruthyStr, ht, some_beq_some] <;>
        split <;> simp

theorem liveAnalyze_run_isSome (n l : String) (files : List String) :
    (liveAnalyze n l files).would_run.isSome = true := by
  have ht := liveReadme_truthy files
  by_cases h2 : (liveReadme files).2 <;>
    by_cases h3 : ((liveReadme files).1 == "No README found") = true <;>
      simp [liveAnalyze, h2, h3, pyTruthyStr, ht, some_beq_some] <;>
        split <;> simp

theorem liveReadme_fail_msg (files : List String)
    (h : (liveReadme files).2 = true) :
    (liveReadme files).1 = "No README found" := by
  unfold liveReadme at h ⊢
  split at h
  · simp at h
  · rename_i h1
    split at h
    · simp at h
    · rename_i heq
      rw [if_neg h1]

theorem liveAnalyze_readme_fail_mode (n l : String) (files : List String)
    (h : (liveReadme files).2 = true) :
    (liveAnalyze n l files).failure_mode = true := by
  have ht := liveReadme_truthy files
  by_cases h3 : ((liveReadme files).1 == "No README found") = true <;>
    simp [liveAnalyze, h, h3, pyTruthyStr, ht, some_beq_some] <;>
      split <;> simp

theorem mem_take_append_of_lt {α : Type} (a : α) (l1 l2 : List α) (n : Nat)
    (h : l1.length < n) : a ∈ (l1 ++ a :: l2).take n := by
  rw [List.take_append_eq_append_take]
  refine List.mem_append.mpr (Or.inr ?_)
  have h1 : 0 < n - l1.length := Nat.sub_pos_of_lt h
  cases hm : n - l1.length with
  | zero => omega
  | succ m => simp [hm, List.take_succ_cons]

theorem runCmdFromLine_no_comment (line c : String)
    (h : runCmdFromLine line = some c) :
    pyStartsWith c "#" = false ∧ pyStartsWith c "<!--" = false := by
  simp only [runCmdFromLine] at h
  repeat' split at h
  all_goals simp_all

theorem npm_line_cmd : runCmdFromLine "`npm run build`" = some "npm run build" := by decide

/-! ## The claims -/

/-- C5: for every README text, the generated plan's run_commands list has
length at most 5 and is the first-5 truncation of the per-line candidate
list, hence preserves first-seen README line order (it is an
order-preserving sublist of the full candidate list). -/
theorem claim_C5 (repo readme : String) (deps : Dependencies) :
    (generate_action_plan repo readme deps).run_commands.length ≤ 5 ∧
    (generate_action_plan repo readme deps).run_commands
      = ((splitLines readme).filterMap runCmdFromLine).take 5 ∧
    List.Sublist (generate_action_plan repo readme deps).run_commands
      ((splitLines readme).filterMap runCmdFromLine) := by
  refine ⟨?_, run_commands_eq repo readme deps, ?_⟩
  · rw [run_commands_eq, List.length_take]
    exact Nat.min_le_left _ _
  · rw [run_commands_eq]
    exact List.take_sublist _ _

/-- C4: when the clone succeeded but README lookup failed, the result
records readme.found = false and dependencies/action_plan stay at their
initial empty-dict values. -/
theorem claim_C4 (repoName : String) (dirExists : Bool) (git : GitOutcome) (d : RepoDir)
    (hclone : (clone_repo dirExists git).1 = true)
    (hread : (read_readme d).1 = false) :
    (analyze_repo repoName dirExists git d).readme_found = false ∧
    (analyze_repo repoName dirExists git d).dependencies = none ∧
    (analyze_repo repoName dirExists git d).action_plan = none :=
  analyze_readme_fail repoName dirExists git d hclone hread

theorem claim_C4_witness :
    (clone_repo true (GitOutcome.ok 0 "")).1 = true ∧
    (read_readme emptyDir).1 = false ∧
    ((analyze_repo "o/r" true (GitOutcome.ok 0 "") emptyDir).readme_found = false ∧
     (analyze_repo "o/r" true (GitOutcome.ok 0 "") emptyDir).dependencies = none ∧
     (analyze_repo "o/r" true (GitOutcome.ok 0 "") emptyDir).action_plan = none) :=
  ⟨by decide, by decide,
   claim_C4 "o/r" true (GitOutcome.ok 0 "") emptyDir (by decide) (by decide)⟩

/-- C8: a repository whose destination directory exists is reported cloned
with success immediately; the result does not depend on the subprocess
oracle (it is not invoked), in both variants; and after a successful
attempt a second attempt is a no-op success. -/
theorem claim_C8 (dirExists d2 : Bool) (g1 g2 g3 : GitOutcome)
    (h1 : dirExists = true) (h2 : (clone_repo d2 g2).1 = true) :
    clone_repo dirExists g1 = (true, "Already cloned") ∧
    clone_repo dirExists g1 = clone_repo dirExists g3 ∧
    clone_repo_live dirExists g1 = true ∧
    clone_repo (dirAfterClone d2 g2) g3 = (true, "Already cloned") := by
  subst h1
  have hd : dirAfterClone d2 g2 = true := by
    unfold dirAfterClone
    rw [h2]
    simp
  rw [hd]
  exact ⟨rfl, rfl, rfl, rfl⟩

theorem claim_C8_witness :
    clone_repo true (GitOutcome.ok 1 "err") = (true, "Already cloned") ∧
    clone_repo true (GitOutcome.ok 1 "err") = clone_repo true (GitOutcome.exc "boom") ∧
    clone_repo_live true (GitOutcome.ok 1 "err") = true ∧
    clone_repo (dirAfterClone false (GitOutcome.ok 0 "out")) (GitOutcome.exc "boom")
      = (true, "Already cloned") :=
  claim_C8 true false (GitOutcome.ok 1 "err") (GitOutcome.ok 0 "out") (GitOutcome.exc "boom")
    rfl (by decide)

/-- C7: a directory with none of the known manifest filenames yields the
all-false dependency dict with empty other-list, and every one of the five
install-plan entries is the explicit placeholder string (the plan fields
are total strings, never null/absent). -/
theorem claim_C7 (files : List String) (repo readme : String)
    (h : depChecks.all (fun c => !(files.contains c.1)) = true) :
    detect_dependencies files = noDeps ∧
    (generate_action_plan repo readme (detect_dependencies files)).depPython = "No Python deps" ∧
    (generate_action_plan repo readme (detect_dependencies files)).depNode = "No Node deps" ∧
    (generate_action_plan repo readme (detect_dependencies files)).depRust = "No Rust deps" ∧
    (generate_action_plan repo readme (detect_dependencies files)).depGo = "No Go deps" ∧
    (generate_action_plan repo readme (detect_dependencies files)).depCpp = "No C++ deps" := by
  simp only [depChecks, List.all_cons, List.all_nil, Bool.and_eq_true,
    Bool.not_eq_true'] at h
  obtain ⟨h1, h2, h3, h4, h5, h6, h7, h8, ⟨h9, -⟩⟩ := h
  have n1 : ¬ ("requirements.txt" ∈ files) := by simpa using h1
  have n2 : ¬ ("Pipfile" ∈ files) := by simpa using h2
  have n3 : ¬ ("pyproject.toml" ∈ files) := by simpa using h3
  have n4 : ¬ ("setup.py" ∈ files) := by simpa using h4
  have n5 : ¬ ("package.json" ∈ files) := by simpa using h5
  have n6 : ¬ ("Cargo.toml" ∈ files) := by simpa using h6
  have n7 : ¬ ("go.mod" ∈ files) := by simpa using h7
  have n8 : ¬ ("CMakeLists.txt" ∈ files) := by simpa using h8
  have n9 : ¬ ("Makefile" ∈ files) := by simpa using h9
  have hd : detect_dependencies files = noDeps := by
    simp [detect_dependencies, depChecks, List.foldl_cons, List.foldl_nil, applyCheck,
      n1, n2, n3, n4, n5, n6, n7, n8, n9]
  rw [hd]
  refine ⟨rfl, ?_, ?_, ?_, ?_, ?_⟩ <;> simp [generate_action_plan, noDeps]

theorem claim_C7_witness :
    depChecks.all (fun c => !(["foo.txt"].contains c.1)) = true ∧
    (detect_dependencies ["foo.txt"] = noDeps ∧
     (generate_action_plan "o/r" "hi" (detect_dependencies ["foo.txt"])).depPython = "No Python deps" ∧
     (generate_action_plan "o/r" "hi" (detect_dependencies ["foo.txt"])).depNode = "No Node deps" ∧
     (generate_action_plan "o/r" "hi" (detect_dependencies ["foo.txt"])).depRust = "No Rust deps" ∧
     (generate_action_plan "o/r" "hi" (detect_dependencies ["foo.txt"])).depGo = "No Go deps" ∧
     (generate_action_plan "o/r" "hi" (detect_dependencies ["foo.txt"])).depCpp = "No C++ deps") :=
  ⟨by decide, claim_C7 ["foo.txt"] "o/r" "hi" (by decide)⟩

/-- C3 counterexample: in the live variant's detector the filename Makefile
is tagged cpp (second cpp manifest candidate), not other — the strict
variant tags it other, so the "every variant" claim fails. -/
theorem claim_C3_counterexample :
    detectLive ["Makefile"] = ["cpp (Makefile)"] ∧
    (detect_dependencies ["Makefile"]).other = ["Makefile"] ∧
    (detect_dependencies ["Makefile"]).cpp = false := by decide

/-- C3 amended: in the strict variant Makefile maps to the other list and
never sets the cpp flag (cpp tracks CMakeLists.txt existence only); in the
live variant Makefile is a cpp manifest (used when CMakeLists.txt is
absent); both detectors depend only on which filenames exist, not on file
contents. -/
theorem claim_C3_amended (files1 files2 : List String) (d1 d2 : RepoDir)
    (h1 : files1.contains "Makefile" = true)
    (h2 : files2.contains "Makefile" = true)
    (h3 : files2.contains "CMakeLists.txt" = false)
    (h4 : d1.files = d2.files) :
    "Makefile" ∈ (detect_dependencies files1).other ∧
    (detect_dependencies files1).cpp = files1.contains "CMakeLists.txt" ∧
    "cpp (Makefile)" ∈ detectLive files2 ∧
    detect_dependencies d1.files = detect_dependencies d2.files ∧
    detectLive d1.files = detectLive d2.files := by
  refine ⟨?_, detect_cpp files1, ?_, by rw [h4], by rw [h4]⟩
  · have m1 : "Makefile" ∈ files1 := by simpa using h1
    rw [detect_other]
    simp [m1]
  · refine List.mem_filterMap.mpr
      ⟨("cpp", ["CMakeLists.txt", "Makefile"]), by decide, ?_⟩
    have hf : List.find? (fun m => files2.contains m) ["CMakeLists.txt", "Makefile"]
        = some "Makefile" := by
      rw [List.find?_cons_of_neg, List.find?_cons_of_pos]
      · exact h2
      · simpa using h3
    simp only [hf, Option.map_some]
    decide

theorem claim_C3_witness :
    (["Makefile", "CMakeLists.txt"].contains "Makefile" = true) ∧
    (["Makefile"].contains "Makefile" = true) ∧
    (["Makefile"].contains "CMakeLists.txt" = false) ∧
    (emptyDir.files = emptyDir.files) ∧
    ("Makefile" ∈ (detect_dependencies ["Makefile", "CMakeLists.txt"]).other ∧
     (detect_dependencies ["Makefile", "CMakeLists.txt"]).cpp
       = ["Makefile", "CMakeLists.txt"].contains "CMakeLists.txt" ∧
     "cpp (Makefile)" ∈ detectLive ["Makefile"] ∧
     detect_dependencies emptyDir.files = detect_dependencies emptyDir.files ∧
     detectLive emptyDir.files = detectLive emptyDir.files) :=
  ⟨by decide, by decide, by decide, rfl,
   claim_C3_amended ["Makefile", "CMakeLists.txt"] ["Makefile"] emptyDir emptyDir
     (by decide) (by decide) (by decide) rfl⟩

/-- C1 counterexample: in the live variant, with a successful clone and no
README in the repository directory, the README stage fails (recorded as
"No README found") yet dependency detection, the AI stub and the install
and run fields are all still populated — later stages are not skipped. -/
theorem claim_C1_counterexample :
    (test_runthis_cli "o/r" "Python" true (GitOutcome.ok 0 "") []).would_readme
      = some "No README found" ∧
    (test_runthis_cli "o/r" "Python" true (GitOutcome.ok 0 "") []).would_detect_deps
      = some (DepsVal.msg "none detected") ∧
    (test_runthis_cli "o/r" "Python" true (GitOutcome.ok 0 "") []).would_ask_ai.isSome
      = true ∧
    (test_runthis_cli "o/r" "Python" true (GitOutcome.ok 0 "") []).would_install
      = some "No dependencies detected" := by decide

/-- C1 amended: in the strict variant a clone or README failure
short-circuits every remaining stage; in the live variant only a clone
failure short-circuits — after a successful clone whose README stage
fails, the failure is recorded (would_readme = "No README found" and
failure_mode set) while dependency detection, the AI stub and the install
and run fields are still populated; in both variants the batch loop still
processes every repository. -/
theorem claim_C1_amended
    (n1 : String) (e1 : Bool) (g1 : GitOutcome) (d1 : RepoDir)
    (n2 : String) (e2 : Bool) (g2 : GitOutcome) (d2 : RepoDir)
    (n3 l3 : String) (e3 : Bool) (g3 : GitOutcome) (f3 : List String)
    (n4 l4 : String) (e4 : Bool) (g4 : GitOutcome) (f4 : List String)
    (inputs : List RepoInput) (linputs : List LiveInput)
    (hc1 : (clone_repo e1 g1).1 = false)
    (hc2 : (clone_repo e2 g2).1 = true) (hr2 : (read_readme d2).1 = false)
    (hc3 : clone_repo_live e3 g3 = false)
    (hc4 : clone_repo_live e4 g4 = true) (hr4 : (liveReadme f4).2 = true) :
    ((analyze_repo n1 e1 g1 d1).readme_found = false ∧
     (analyze_repo n1 e1 g1 d1).dependencies = none ∧
     (analyze_repo n1 e1 g1 d1).action_plan = none) ∧
    ((analyze_repo n2 e2 g2 d2).dependencies = none ∧
     (analyze_repo n2 e2 g2 d2).action_plan = none) ∧
    ((test_runthis_cli n3 l3 e3 g3 f3).would_readme = none ∧
     (test_runthis_cli n3 l3 e3 g3 f3).would_detect_deps = none ∧
     (test_runthis_cli n3 l3 e3 g3 f3).would_ask_ai = none) ∧
    ((test_runthis_cli n4 l4 e4 g4 f4).would_readme = some "No README found" ∧
     (test_runthis_cli n4 l4 e4 g4 f4).failure_mode = true ∧
     (test_runthis_cli n4 l4 e4 g4 f4).would_detect_deps.isSome = true ∧
     (test_runthis_cli n4 l4 e4 g4 f4).would_ask_ai.isSome = true ∧
     (test_runthis_cli n4 l4 e4 g4 f4).would_install.isSome = true ∧
     (test_runthis_cli n4 l4 e4 g4 f4).would_run.isSome = true) ∧
    (run_tests inputs).length = inputs.length ∧
    (run_live_tests linputs).length = linputs.length := by
  obtain ⟨-, ha1, ha2, -, ha3, ha4⟩ := analyze_clone_fail n1 e1 g1 d1 hc1
  obtain ⟨-, hb1, hb2⟩ := analyze_readme_fail n2 e2 g2 d2 hc2 hr2
  refine ⟨⟨ha1, ha3, ha4⟩, ⟨hb1, hb2⟩, ?_, ?_, ?_, ?_⟩
  · simp [test_runthis_cli, hc3, liveInit]
  · have ht : test_runthis_cli n4 l4 e4 g4 f4 = liveAnalyze n4 l4 f4 := by
      simp [test_runthis_cli, hc4]
    rw [ht, liveAnalyze_would_readme, liveReadme_fail_msg f4 hr4]
    exact ⟨rfl, liveAnalyze_readme_fail_mode n4 l4 f4 hr4,
      liveAnalyze_detect_isSome n4 l4 f4, liveAnalyze_ask_isSome n4 l4 f4,
      liveAnalyze_install_isSome n4 l4 f4, liveAnalyze_run_isSome n4 l4 f4⟩
  · simp [run_tests]
  · simp [run_live_tests]

theorem claim_C1_witness :
    ((clone_repo false (GitOutcome.exc "timeout")).1 = false) ∧
    ((clone_repo true (GitOutcome.ok 0 "")).1 = true) ∧
    ((read_readme emptyDir).1 = false) ∧
    (clone_repo_live false (GitOutcome.exc "timeout") = false) ∧
    (clone_repo_live true (GitOutcome.ok 0 "") = true) ∧
    ((liveReadme []).2 = true) ∧
    (((analyze_repo "a/b" false (GitOutcome.exc "timeout") emptyDir).readme_found = false ∧
      (analyze_repo "a/b" false (GitOutcome.exc "timeout") emptyDir).dependencies = none ∧
      (analyze_repo "a/b" false (GitOutcome.exc "timeout") emptyDir).action_plan = none) ∧
     ((analyze_repo "c/d" true (GitOutcome.ok 0 "") emptyDir).dependencies = none ∧
      (analyze_repo "c/d" true (GitOutcome.ok 0 "") emptyDir).action_plan = none) ∧
     ((test_runthis_cli "e/f" "Py" false (GitOutcome.exc "timeout") []).would_readme = none ∧
      (test_runthis_cli "e/f" "Py" false (GitOutcome.exc "timeout") []).would_detect_deps = none ∧
      (test_runthis_cli "e/f" "Py" false (GitOutcome.exc "timeout") []).would_ask_ai = none) ∧
     ((test_runthis_cli "g/h" "Py" true (GitOutcome.ok 0 "") []).would_readme
        = some "No README found" ∧
      (test_runthis_cli "g/h" "Py" true (GitOutcome.ok 0 "") []).failure_mode = true ∧
      (test_runthis_cli "g/h" "Py" true (GitOutcome.ok 0 "") []).would_detect_deps.isSome = true ∧
      (test_runthis_cli "g/h" "Py" true (GitOutcome.ok 0 "") []).would_ask_ai.isSome = true ∧
      (test_runthis_cli "g/h" "Py" true (GitOutcome.ok 0 "") []).would_install.isSome = true ∧
      (test_runthis_cli "g/h" "Py" true (GitOutcome.ok 0 "") []).would_run.isSome = true) ∧
     (run_tests []).length = ([] : List RepoInput).length ∧
     (run_live_tests []).length = ([] : List LiveInput).length) :=
  ⟨by decide, by decide, by decide, by decide, by decide, by decide,
   claim_C1_amended "a/b" false (GitOutcome.exc "timeout") emptyDir
     "c/d" true (GitOutcome.ok 0 "") emptyDir
     "e/f" "Py" false (GitOutcome.exc "timeout") []
     "g/h" "Py" true (GitOutcome.ok 0 "") []
     [] []
     (by decide) (by decide) (by decide) (by decide) (by decide) (by decide)⟩

/-- C6 counterexample: the truncation to the first five matches can drop
the backtick-wrapped npm run build line — here five earlier matching lines
fill the list, so the trimmed string is absent although the README contains
the line. -/
theorem claim_C6_counterexample :
    ("`npm run build`" ∈ splitLines c6readme) ∧
    ¬ ("npm run build" ∈ (generate_action_plan "o/r" c6readme noDeps).run_commands) := by
  decide

/-- C6 amended: a backtick-wrapped npm run build line always contributes
the trimmed candidate "npm run build", and it appears in run_commands
whenever fewer than five matching lines precede it; moreover no element of
run_commands starts with a hash or an HTML comment opener (after
stripping). -/
theorem claim_C6_amended (repo readme : String) (deps : Dependencies)
    (pre post : List String)
    (hsplit : splitLines readme = pre ++ "`npm run build`" :: post)
    (hlen : (pre.filterMap runCmdFromLine).length < 5) :
    "npm run build" ∈ (generate_action_plan repo readme deps).run_commands ∧
    ∀ c ∈ (generate_action_plan repo readme deps).run_commands,
      pyStartsWith c "#" = false ∧ pyStartsWith c "<!--" = false := by
  constructor
  · rw [run_commands_eq, hsplit, List.filterMap_append,
      List.filterMap_cons_some npm_line_cmd]
    exact mem_take_append_of_lt _ _ _ _ hlen
  · intro c hc
    rw [run_commands_eq] at hc
    have hc2 := List.take_subset _ _ hc
    obtain ⟨line, -, hline⟩ := List.mem_filterMap.mp hc2
    exact runCmdFromLine_no_comment line c hline

theorem claim_C6_witness :
    (splitLines "`npm run build`" = [] ++ "`npm run build`" :: []) ∧
    ((([] : List String).filterMap runCmdFromLine).length < 5) ∧
    ("npm run build" ∈ (generate_action_plan "o/r" "`npm run build`" noDeps).run_commands ∧
     ∀ c ∈ (generate_action_plan "o/r" "`npm run build`" noDeps).run_commands,
       pyStartsWith c "#" = false ∧ pyStartsWith c "<!--" = false) :=
  ⟨by decide, by decide,
   claim_C6_amended "o/r" "`npm run build`" noDeps [] [] (by decide) (by decide)⟩

/-- C9: in the strict variant, the aggregate report is produced exactly
when every repository of the batch reached the plan-generation stage
(clone succeeded and README was found); otherwise the avg_run_commands
lookup r["action_plan"]["run_commands"] hits the empty dict and the
KeyError escapes, so generate_report yields no report. -/
theorem claim_C9 (inputs : List RepoInput) :
    isOkE (generate_report (run_tests inputs)) = true ↔
      ∀ i ∈ inputs, (clone_repo i.dirExists i.git).1 = true ∧ (read_readme i.dir).1 = true := by
  rw [generate_report_isOk, List.all_eq_true]
  constructor
  · intro h i hi
    have hx := h (runInput i) (List.mem_map_of_mem _ hi)
    rw [runInput, analyze_plan_isSome, Bool.and_eq_true] at hx
    exact hx
  · intro h r hr
    obtain ⟨i, hi, rfl⟩ := List.mem_map.mp hr
    rw [runInput, analyze_plan_isSome, Bool.and_eq_true]
    exact h i hi

theorem generate_report_success_rate (results : List AnalysisResult) (rep : Report)
    (h : generate_report results = Except.ok rep) :
    rep.success_rate = ((results.filter (fun r => r.clone_success)).length : ℚ)
        / ((results.length : ℚ)) * 100 := by
  cases results with
  | nil =>
    have h2 : generate_report ([] : List AnalysisResult) = Except.ok ⟨0, 0, 0, 0, 0⟩ := rfl
    rw [h2] at h
    have h3 := Except.ok.inj h
    rw [← h3]
    norm_num
  | cons r rs =>
    have h0 : 0 < (r :: rs).length := Nat.succ_pos _
    simp only [generate_report, if_pos h0] at h
    cases hs : sumRunCommands (r :: rs) with
    | error e => rw [hs] at h; exact Except.noConfusion h
    | ok n =>
      rw [hs] at h
      have h3 := Except.ok.inj h
      rw [← h3]

/-- C2: the code evaluated at the failing input. A live batch whose one
repository fails to clone records a failure mode whose would_ask_ai is
None, and main's print_report raises AttributeError at the failure-mode
scan instead of returning 0 — although the code's own comment at line 228
documents that main exits 0 even with failures, as the claim states.
Without a clone failure, live main does return 0 (even when an AI failure
mode was recorded); and the strict variant's threshold rule holds as
claimed: exit 0 at a fully successful batch (rate 100 ≥ 80), exit 1 at an
empty batch (rate 0 < 80). -/
theorem claim_C2 :
    live_main_exit (run_live_tests [⟨"o/r", "Py", false, GitOutcome.exc "timeout", []⟩])
      = Except.error attrErrNoneGet ∧
    ¬ (live_main_exit (run_live_tests [⟨"o/r", "Py", false, GitOutcome.exc "timeout", []⟩])
        = Except.ok 0) ∧
    live_main_exit (run_live_tests
        [⟨"a/b", "Py", true, GitOutcome.ok 0 "", ["README.md", "Makefile"]⟩])
      = Except.ok 0 ∧
    live_main_exit (run_live_tests [⟨"c/d", "Py", true, GitOutcome.ok 0 "", []⟩])
      = Except.ok 0 ∧
    strict_main [demoInput] = Except.ok 0 ∧
    strict_main [] = Except.ok 1 := by
  have hap : (runInput demoInput).action_plan
      = some (generate_action_plan "o/r" "" noDeps) := by decide
  have hcs : (runInput demoInput).clone_success = true := by decide
  have hrf : (runInput demoInput).readme_found = true := by decide
  have hlen : (generate_action_plan "o/r" "" noDeps).run_commands.length = 0 := by decide
  have hr : run_tests [demoInput] = [runInput demoInput] := rfl
  have hrep : generate_report (run_tests [demoInput]) = Except.ok ⟨1, 1, 1, 100, 0⟩ := by
    rw [hr]
    simp [generate_report, sumRunCommands, runCommandsLen, hap, hcs, hrf, hlen]
  have hm : strict_main [demoInput] = Except.ok 0 := by
    unfold strict_main
    rw [hrep]
    norm_num
  exact ⟨by decide, by decide, by decide, by decide, hm, by decide⟩

/-- C10: in the live variant, every cloned repository with no detected
dependencies triggers the AI-failure branch: the guard's would_readme check
is truthy whenever the clone succeeded (it is always a non-empty string at
that point), failure_mode is set, the AI stub records would_fail, and
failure_reason ends as the AI-failure text — even when the README was also
missing, whose earlier failure_reason is thereby overwritten. -/
theorem claim_C10 (repoName language : String) (dirExists : Bool) (git : GitOutcome)
    (files : List String)
    (hclone : clone_repo_live dirExists git = true)
    (hdeps : detectLive files = []) :
    (test_runthis_cli repoName language dirExists git files).failure_mode = true ∧
    (test_runthis_cli repoName language dirExists git files).failure_reason
      = some "AI failure mode - no clear instructions found" ∧
    pyTruthyStr (test_runthis_cli repoName language dirExists git files).would_readme
      = true ∧
    (test_runthis_cli repoName language dirExists git files).would_ask_ai.map
      (fun a => a.would_fail) = some (some true) := by
  have ht : test_runthis_cli repoName language dirExists git files
      = liveAnalyze repoName language files := by
    simp [test_runthis_cli, hclone]
  obtain ⟨h1, h2, h3⟩ := liveAnalyze_nodeps repoName language files hdeps
  rw [ht, liveAnalyze_would_readme]
  refine ⟨h1, h2, ?_, h3⟩
  simp [pyTruthyStr, liveReadme_truthy]

theorem claim_C10_witness :
    (clone_repo_live true (GitOutcome.ok 0 "") = true) ∧
    (detectLive [] = []) ∧
    ((test_runthis_cli "o/r" "Python" true (GitOutcome.ok 0 "") []).failure_mode = true ∧
     (test_runthis_cli "o/r" "Python" true (GitOutcome.ok 0 "") []).failure_reason
       = some "AI failure mode - no clear instructions found" ∧
     pyTruthyStr (test_runthis_cli "o/r" "Python" true (GitOutcome.ok 0 "") []).would_readme
       = true ∧
     (test_runthis_cli "o/r" "Python" true (GitOutcome.ok 0 "") []).would_ask_ai.map
       (fun a => a.would_fail) = some (some true)) :=
  ⟨by decide, by decide,
   claim_C10 "o/r" "Python" true (GitOutcome.ok 0 "") [] (by decide) (by decide)⟩
